import Mathlib

/-!
Shallow embedding of the Valorant player-statistics tracker (`app.py`).

The relational tables are modelled as Lean lists, Python numbers as `ℕ`/`ℤ`/`ℚ`
(floats idealised as rationals), and the Streamlit form handlers as pure
functions from their inputs to the messages they display and the writes they
perform.  Each definition is translated from the corresponding function of the
source file; line references are given in the doc comments.
-/

namespace ValorantPRS

/-- The `role` column of the `users` table: the spec fixes the closed
vocabulary `{player, admin}` (`'player'` inserted by registration,
`'admin'` by `create_admin.py`). -/
inductive Role
  | player
  | admin
deriving DecidableEq

/-- A row of the `users` table: `users(id PK, username UNIQUE, password_hash, role)`. -/
structure User where
  id : ℤ
  username : String
  password_hash : String
  role : Role
deriving DecidableEq

/-- A row of the `matches` table, as fetched by `fetch_all_matches` /
`fetch_matches_by_user`.  `econ_rating` is a float in the source, idealised
as a rational. -/
structure MatchRow where
  id : ℤ
  user_id : ℤ
  player_name : String
  win_loss : String
  map_name : String
  agent : String
  current_rank : String
  acs : ℕ
  econ_rating : ℚ
  kills : ℕ
  deaths : ℕ
  assists : ℕ
deriving DecidableEq

/-- The tuple inserted by `add_match` (app.py lines 68-76); the `id` column is
generated by the database and is not part of the insert. -/
structure MatchInsert where
  user_id : ℤ
  player_name : String
  win_loss : String
  map_name : String
  agent : String
  current_rank : String
  acs : ℕ
  econ_rating : ℚ
  kills : ℕ
  deaths : ℕ
  assists : ℕ
deriving DecidableEq

/-- `get_user` (app.py lines 30-35): `SELECT * FROM users WHERE username = %s`,
returning the first matching row or nothing. -/
def get_user (store : List User) (username : String) : Option User :=
  store.find? (fun u => u.username == username)

/-- `login` (app.py lines 56-60): looks the user up, verifies the password
against the stored hash, and returns the user on success and `None`
otherwise.  The bcrypt check `verify_password` is abstracted as the
parameter `verify` (password → stored hash → ok?). -/
def login (verify : String → String → Bool) (store : List User)
    (username password : String) : Option User :=
  match get_user store username with
  | some u => if verify password u.password_hash then some u else none
  | none => none

/-- Outcome displayed by the registration tab (app.py lines 156-163). -/
inductive RegisterOutcome
  | passwordMismatch
  | usernameTaken
  | success
deriving DecidableEq

/-- The registration tab handler (app.py lines 156-163) together with
`register_user` (lines 40-54): password-confirmation check first, then the
duplicate-username check, then the insert of a `'player'` row.  The bcrypt
hashing is abstracted as the parameter `hash`; `nid` is the id the database
generates for the new row. -/
def register_tab (store : List User) (new_user new_pass confirm_pass : String)
    (nid : ℤ) (hash : String → String) : RegisterOutcome × List User :=
  if new_pass ≠ confirm_pass then (RegisterOutcome.passwordMismatch, store)
  else if (get_user store new_user).isSome then (RegisterOutcome.usernameTaken, store)
  else (RegisterOutcome.success,
    store ++ [{ id := nid, username := new_user, password_hash := hash new_pass,
                role := Role.player }])

/-- `calculate_kd_ratio` (app.py lines 65-66):
`return kills if deaths == 0 else kills / deaths` — Python true division,
idealised over the rationals. -/
def calculate_kd_ratio (kills deaths : ℕ) : ℚ :=
  if deaths = 0 then kills else (kills : ℚ) / (deaths : ℚ)

/-- `delete_match` (app.py lines 78-85): a `player` deletes by
`id = %s AND user_id = %s`; any other role (i.e. `admin`) deletes by
`id = %s` alone.  SQL `DELETE` affecting zero rows succeeds, so the result
is the table with the matching rows filtered out. -/
def delete_match (record_id : ℤ) (user : User) (tbl : List MatchRow) : List MatchRow :=
  if user.role = Role.player then
    tbl.filter (fun r => !(r.id == record_id && r.user_id == user.id))
  else
    tbl.filter (fun r => !(r.id == record_id))

/-! ### Aggregation engine -/

/-- Floor of a rational, written concretely (division of the numerator by
the positive denominator) so that it is executable. -/
def ratFloor (q : ℚ) : ℤ := q.num / (q.den : ℤ)

/-- Round-half-to-even at integer precision, the rounding mode used by
numpy / `DataFrame.round`. -/
def roundHalfEven (q : ℚ) : ℤ :=
  if q - (ratFloor q : ℚ) < 1/2 then ratFloor q
  else if 1/2 < q - (ratFloor q : ℚ) then ratFloor q + 1
  else if ratFloor q % 2 = 0 then ratFloor q else ratFloor q + 1

/-- `.round(2)` on a float column: round half-to-even to 2 decimal places. -/
def round2 (q : ℚ) : ℚ := (roundHalfEven (q * 100) : ℚ) / 100

/-- Pandas column mean: sum divided by count. -/
def mean (l : List ℚ) : ℚ := l.sum / l.length

/-- A row of the DataFrame produced by `aggregate_player_stats`
(app.py lines 101-120) after renaming: columns `player_name`, `avg_acs`,
`avg_econ_rating`, the summed `kills`/`deaths`/`assists` (written
`total_*` here, following the spec, since aggregated `kills` would clash
with the raw column), mean `K/D Ratio`, and `matches_played`. -/
structure AggRow where
  player_name : String
  avg_acs : ℚ
  avg_econ_rating : ℚ
  total_kills : ℕ
  total_deaths : ℕ
  total_assists : ℕ
  avg_kd_ratio : ℚ
  matches_played : ℕ
deriving DecidableEq

/-- The result DataFrame of `aggregate_player_stats`: `pd.DataFrame()` (a
frame with no columns at all) for empty input, otherwise a table of
aggregate rows.  The distinction matters because `sort_values` on a frame
without an `avg_acs` column raises `KeyError`. -/
inductive AggDF
  | emptyNoCols
  | table : List AggRow → AggDF
deriving DecidableEq

/-- The group of records for one `player_name` (the rows `groupby` collects,
in input order). -/
def groupRecords (data : List MatchRow) (name : String) : List MatchRow :=
  data.filter (fun r => r.player_name == name)

/-- The aggregate row `groupby(...).agg(...)` computes for one group, with
`.round(2)` applied to the float columns (app.py lines 105-120): means of
`acs`, `econ_rating` and the derived per-record K/D column, sums of
`kills`/`deaths`/`assists`, and the `win_loss` count as `matches_played`. -/
def aggStatsFor (g : List MatchRow) (name : String) : AggRow :=
  { player_name := name
    avg_acs := round2 (mean (g.map (fun r => (r.acs : ℚ))))
    avg_econ_rating := round2 (mean (g.map (fun r => r.econ_rating)))
    total_kills := (g.map (fun r => r.kills)).sum
    total_deaths := (g.map (fun r => r.deaths)).sum
    total_assists := (g.map (fun r => r.assists)).sum
    avg_kd_ratio := round2 (mean (g.map (fun r => calculate_kd_ratio r.kills r.deaths)))
    matches_played := g.length }

/-- The group keys of `df.groupby("player_name")`: the distinct
`player_name` values, sorted ascending (pandas `groupby` default
`sort=True`). -/
def groupKeys (data : List MatchRow) : List String :=
  List.insertionSort (fun a b => a ≤ b) (data.map (fun r => r.player_name)).dedup

/-- `aggregate_player_stats` (app.py lines 101-120): `pd.DataFrame()` when
`data` is empty, otherwise one aggregate row per `player_name` group. -/
def aggregate_player_stats (data : List MatchRow) : AggDF :=
  if data.isEmpty then AggDF.emptyNoCols
  else AggDF.table ((groupKeys data).map (fun n => aggStatsFor (groupRecords data n) n))

/-- The ordering used by
`sort_values(by="avg_acs", ascending=False)`: row `a` precedes row `b`
when `b`'s mean ACS is at most `a`'s. -/
def accDesc (a b : AggRow) : Prop := AggRow.avg_acs b ≤ AggRow.avg_acs a

instance : DecidableRel accDesc :=
  fun a b => inferInstanceAs (Decidable (AggRow.avg_acs b ≤ AggRow.avg_acs a))

/-- `reset_index(drop=True)` followed by `index += 1`: pair the rows with
positions `n, n+1, ...`. -/
def indexFrom : ℕ → List AggRow → List (ℕ × AggRow)
  | _, [] => []
  | n, a :: l => (n, a) :: indexFrom (n + 1) l

/-- Result of `rank_players`: either the uncaught `KeyError` raised by
`sort_values` on a frame without the `avg_acs` column, or the ranked rows. -/
inductive RankResult
  | keyError : String → RankResult
  | ok : List (ℕ × AggRow) → RankResult
deriving DecidableEq

/-- `rank_players` (app.py lines 122-125): sorts the aggregate DataFrame
descending by `avg_acs` and re-indexes from 1.  On the column-less
`pd.DataFrame()` that `aggregate_player_stats` returns for empty input,
`sort_values(by="avg_acs")` raises `KeyError`.  On a table the sort is
modelled as a stable descending sort; note that `sort_values` with the
default `kind='quicksort'` (numpy introsort) guarantees the descending
order but not a particular order among rows with equal `avg_acs` — the
stable sort here fixes one concrete tie order, matching numpy only on
the small frames that take its insertion-sort path. -/
def rank_players (df : AggDF) : RankResult :=
  match df with
  | AggDF.emptyNoCols => RankResult.keyError "avg_acs"
  | AggDF.table rows => RankResult.ok (indexFrom 1 (List.insertionSort accDesc rows))

/-! ### The match-submission form handler -/

/-- What one submission of the `match_form` produces: the error/success
messages shown, and the row handed to `add_match` (or `none` when
`add_match` is not reached). -/
structure SubmitResult where
  messages : List String
  inserted : Option MatchInsert
deriving DecidableEq

/-- The `match_form` submit handler (app.py lines 205-214).  For a `player`
the name is forced to the username; the empty-name check is a bare `if`
that only displays an error, and the insert is gated solely by
`not acs or kills is None or deaths is None or assists is None` — since
`st.number_input` always returns a value, the `is None` tests are always
false and only `acs == 0` (Python falsiness of `0`) blocks the insert. -/
def match_form_submit (user : User) (player_name_input : String)
    (win_loss map_name agent current_rank : String) (acs : ℕ) (econ_rating : ℚ)
    (kills deaths assists : ℕ) : SubmitResult :=
  let is_player := user.role = Role.player
  let player_name := if is_player then user.username else player_name_input
  let nameErrs := if player_name = "" then ["Player name is required."] else []
  if acs = 0 then
    { messages := nameErrs ++ ["Please fill in all required fields."], inserted := none }
  else
    { messages := nameErrs ++ ["✅ Match details added successfully!"]
      inserted := some
        { user_id := user.id, player_name := player_name, win_loss := win_loss
          map_name := map_name, agent := agent, current_rank := current_rank
          acs := acs, econ_rating := econ_rating, kills := kills, deaths := deaths
          assists := assists } }

/-! ### The delete-form handler -/

/-- The display string built for a row in the delete form (app.py line 225):
`f"{player_name} | {map_name} | {agent} | {current_rank} | {kills}/{deaths}"`.
Note the commented-out line 224 that started with `row['id']` — the active
string starts with `player_name` instead. -/
def record_option (r : MatchRow) : String :=
  r.player_name ++ " | " ++ r.map_name ++ " | " ++ r.agent ++ " | "
    ++ r.current_rank ++ " | " ++ toString r.kills ++ "/" ++ toString r.deaths

/-- The character list of the separator `" | "` used by `split(" | ")`. -/
def sepChars : List Char := [' ', '|', ' ']

/-- The prefix of a character list up to (and excluding) the first
occurrence of `" | "`: exactly Python's `s.split(" | ")[0]`. -/
def takeUntilSep : List Char → List Char
  | [] => []
  | c :: rest =>
    if List.isPrefixOf sepChars (c :: rest) then []
    else c :: takeUntilSep rest

/-- `record_to_delete.split(" | ")[0]` (app.py line 228). -/
def selected_first_field (r : MatchRow) : String :=
  String.mk (takeUntilSep (record_option r).data)

/-- The whitespace `int(str)` ignores around the number (ASCII fragment:
space, tab, newline, carriage return, vertical tab, form feed). -/
def pySpace (c : Char) : Bool :=
  c = ' ' || c = '\t' || c = '\n' || c = '\r' || c.toNat = 11 || c.toNat = 12

/-- Strip leading and trailing `pySpace` characters. -/
def stripChars (l : List Char) : List Char :=
  ((l.dropWhile pySpace).reverse.dropWhile pySpace).reverse

/-- Validity of the characters after the first digit of a Python integer
literal: digits, with single underscores allowed only between digits. -/
def digitTail : List Char → Bool
  | [] => true
  | '_' :: [] => false
  | '_' :: d :: rest => d.isDigit && digitTail rest
  | c :: rest => c.isDigit && digitTail rest

/-- A Python `digitpart`: nonempty, starts with a digit, underscores only
between digits. -/
def digitPart (l : List Char) : Bool :=
  match l with
  | [] => false
  | c :: rest => c.isDigit && digitTail rest

/-- Numeric value of a digit string, skipping the grouping underscores. -/
def digitsToNat (l : List Char) : ℕ :=
  l.foldl (fun acc c => if c = '_' then acc else acc * 10 + (c.toNat - 48)) 0

/-- Python's `int(str)` on the ASCII fragment: optional surrounding
whitespace, an optional single `+`/`-` sign, then a digit part; `none`
models the `ValueError` raised on anything else. -/
def pyInt (s : String) : Option ℤ :=
  match stripChars s.data with
  | '+' :: rest => if digitPart rest then some (digitsToNat rest : ℤ) else none
  | '-' :: rest => if digitPart rest then some (-(digitsToNat rest : ℤ)) else none
  | l => if digitPart l then some (digitsToNat l : ℤ) else none

/-- The `delete_form` submit handler (app.py lines 227-229):
`record_id = int(record_to_delete.split(" | ")[0])` followed by
`delete_match(record_id, user)`.  `none` models the uncaught `ValueError`
from `int`, in which case `delete_match` is never called. -/
def delete_form_submit (r : MatchRow) (user : User) (tbl : List MatchRow) :
    Option (List MatchRow) :=
  match pyInt (selected_first_field r) with
  | none => none
  | some k => some (delete_match k user tbl)

/-- A string of decimal digits (the reading used by the claim about the
delete form): nonempty and consisting of `0`-`9` only. -/
def isDigitString (s : String) : Bool :=
  !s.data.isEmpty && s.data.all Char.isDigit

/-! ### Concrete sample data used by witnesses and counterexamples -/

/-- An `admin` account, as created by `create_admin.py`. -/
def opsAdmin : User :=
  { id := 99, username := "ops", password_hash := "h0", role := Role.admin }

/-- A `player` account. -/
def alice : User :=
  { id := 1, username := "alice", password_hash := "hashA", role := Role.player }

/-- First record of the spec's aggregation example: player `A`, acs 200,
10 kills, 5 deaths. -/
def recA1 : MatchRow :=
  { id := 1, user_id := 1, player_name := "A", win_loss := "Win", map_name := "Bind"
    agent := "Jett", current_rank := "Radiant", acs := 200, econ_rating := 50
    kills := 10, deaths := 5, assists := 3 }

/-- Second record of the spec's aggregation example: player `A`, acs 300,
20 kills, 0 deaths. -/
def recA2 : MatchRow := { recA1 with id := 2, acs := 300, kills := 20, deaths := 0 }

/-- A match record owned by user 2 (not by `alice`). -/
def recOther : MatchRow := { recA1 with user_id := 2 }

/-- A record whose `player_name` is `"+7"`: not a digit string, yet accepted
by Python's `int`. -/
def recPlus : MatchRow := { recA1 with player_name := "+7" }

/-- A record whose `player_name` contains the separator `" | "`. -/
def recBar : MatchRow := { recA1 with player_name := "a | b" }

/-- A record with an ordinary non-numeric `player_name`. -/
def recAbc : MatchRow := { recA1 with player_name := "abc" }

/-! ### Helper lemmas -/

theorem ratFloor_eq_floor (q : ℚ) : ratFloor q = ⌊q⌋ := Rat.floor_def.symm

theorem roundHalfEven_intCast (n : ℤ) : roundHalfEven ((n : ℤ) : ℚ) = n := by
  have h : ratFloor ((n : ℤ) : ℚ) = n := by rw [ratFloor_eq_floor, Int.floor_intCast]
  simp [roundHalfEven, h]

theorem round2_intCast (n : ℤ) : round2 ((n : ℤ) : ℚ) = ((n : ℤ) : ℚ) := by
  have h : ((n : ℤ) : ℚ) * 100 = (((n * 100 : ℤ)) : ℚ) := by push_cast; ring
  rw [round2, h, roundHalfEven_intCast]
  push_cast
  exact mul_div_cancel_right₀ _ (by norm_num)

theorem takeUntilSep_append (name rest : List Char) (h : '|' ∉ name) :
    takeUntilSep (name ++ (sepChars ++ rest)) = name := by
  induction name with
  | nil => simp [takeUntilSep, sepChars, List.isPrefixOf]
  | cons c name ih =>
    have hc : '|' ∉ name := fun hm => h (List.mem_cons_of_mem c hm)
    have hpre : List.isPrefixOf sepChars (c :: (name ++ (sepChars ++ rest))) = false := by
      cases name with
      | nil => simp [sepChars, List.isPrefixOf]
      | cons d name' =>
        have hd : d ≠ '|' := by
          intro hd
          exact hc (hd ▸ List.mem_cons_self d name')
        simp [sepChars, List.isPrefixOf, Ne.symm hd]
    simp [takeUntilSep, hpre, ih hc]

/-! ### Claim theorems -/

/-- Claim C4: `calculate_kd_ratio` returns `kills` when `deaths == 0` (so
`kills == 0` gives `0`), and the exact quotient `kills / deaths` when
`deaths > 0`. -/
theorem kd_ratio_spec (kills deaths : ℕ) :
    (deaths = 0 → calculate_kd_ratio kills deaths = (kills : ℚ)) ∧
    (0 < deaths → calculate_kd_ratio kills deaths = (kills : ℚ) / (deaths : ℚ)) ∧
    calculate_kd_ratio 0 0 = 0 := by
  refine ⟨fun h => by simp [calculate_kd_ratio, h], fun h => ?_, by simp [calculate_kd_ratio]⟩
  simp [calculate_kd_ratio, Nat.pos_iff_ne_zero.mp h]

/-- Witness for C4 at concrete inputs: a 7-kill deathless match has ratio 7,
and 10 kills over 4 deaths give exactly 10/4. -/
theorem kd_ratio_spec_witness :
    calculate_kd_ratio 7 0 = 7 ∧ calculate_kd_ratio 10 4 = 10 / 4 := by
  constructor
  · have h := (kd_ratio_spec 7 0).1 rfl
    simpa using h
  · have h := (kd_ratio_spec 10 4).2.1 (by norm_num)
    simpa using h

/-- Claim C7: `login` with an unknown username and `login` with a wrong
password both return `None` — the identical observable outcome, shown to
the user as the same `InvalidCredentials` message, leaking nothing about
which case occurred. -/
theorem login_uniform_failure (verify : String → String → Bool) (store : List User)
    (username password : String) :
    (get_user store username = none → login verify store username password = none) ∧
    (∀ u, get_user store username = some u → verify password u.password_hash = false →
      login verify store username password = none) ∧
    (∀ store2 username2 password2 u, get_user store username = none →
      get_user store2 username2 = some u → verify password2 u.password_hash = false →
      login verify store username password = login verify store2 username2 password2) := by
  refine ⟨fun h => by simp [login, h], fun u hu hv => by simp [login, hu, hv],
    fun store2 username2 password2 u h1 h2 h3 => ?_⟩
  simp [login, h1, h2, h3]

/-- Witness for C7: with a one-user store, a wrong password for `alice` and
a login for the absent `bob` both yield `none`. -/
theorem login_uniform_failure_witness :
    login (fun p h => p == h) [alice] "alice" "wrong" = none ∧
    login (fun p h => p == h) [alice] "bob" "hashA" = none := by
  constructor
  · exact (login_uniform_failure (fun p h => p == h) [alice] "alice" "wrong").2.1
      alice (by decide) (by decide)
  · exact (login_uniform_failure (fun p h => p == h) [alice] "bob" "hashA").1 (by decide)

/-- Claim C8: the registration tab fails with `PasswordMismatch` whenever
the two passwords differ (checked first, nothing persisted), else fails
with `UsernameTaken` when the username exists (store unchanged, no
duplicate), else persists exactly one new user with role `player`. -/
theorem register_tab_spec (store : List User) (nu np cp : String) (nid : ℤ)
    (hash : String → String) :
    (np ≠ cp → register_tab store nu np cp nid hash = (RegisterOutcome.passwordMismatch, store)) ∧
    (np = cp → (get_user store nu).isSome = true →
      register_tab store nu np cp nid hash = (RegisterOutcome.usernameTaken, store)) ∧
    (np = cp → get_user store nu = none →
      register_tab store nu np cp nid hash = (RegisterOutcome.success,
        store ++ [{ id := nid, username := nu, password_hash := hash np,
                    role := Role.player }])) := by
  refine ⟨fun h => by simp [register_tab, h], fun h h2 => by simp [register_tab, h, h2],
    fun h h2 => ?_⟩
  simp [register_tab, h, h2]

/-- Witness for C8: re-registering the existing `alice` reports
`UsernameTaken` and leaves the store unchanged. -/
theorem register_tab_spec_witness :
    register_tab [alice] "alice" "p" "p" 2 (fun s => s) =
      (RegisterOutcome.usernameTaken, [alice]) :=
  (register_tab_spec [alice] "alice" "p" "p" 2 (fun s => s)).2.1 rfl (by decide)

/-- Claim C1: for a `player`, `delete_match` removes exactly the rows
matching both the record id and the acting user's id, is a no-op when no
such row exists; for an `admin` it removes exactly the rows matching the
record id, regardless of owner. -/
theorem delete_match_spec (tbl : List MatchRow) (rid : ℤ) (u : User) :
    (u.role = Role.player →
      ((∀ r, r ∈ delete_match rid u tbl ↔
          r ∈ tbl ∧ ¬(r.id = rid ∧ r.user_id = u.id)) ∧
       ((∀ r ∈ tbl, ¬(r.id = rid ∧ r.user_id = u.id)) → delete_match rid u tbl = tbl))) ∧
    (u.role = Role.admin →
      ((∀ r, r ∈ delete_match rid u tbl ↔ r ∈ tbl ∧ r.id ≠ rid) ∧
       ((∀ r ∈ tbl, r.id ≠ rid) → delete_match rid u tbl = tbl))) := by
  constructor
  · intro h
    constructor
    · intro r
      simp [delete_match, h, List.mem_filter, not_and, Decidable.imp_iff_not_or]
    · intro hall
      rw [delete_match, if_pos h, List.filter_eq_self]
      intro r hr
      have := hall r hr
      simp only [Bool.not_eq_true', Bool.and_eq_false_iff, beq_eq_false_iff_ne, ne_eq,
        Bool.not_eq_eq_eq_not, Bool.not_true, not_and] at this ⊢
      tauto
  · intro h
    have hne : u.role ≠ Role.player := by rw [h]; intro hc; cases hc
    constructor
    · intro r
      simp [delete_match, hne, List.mem_filter]
    · intro hall
      rw [delete_match, if_neg hne, List.filter_eq_self]
      intro r hr
      simpa using hall r hr

/-- Witness for C1: `alice` (a `player`) deleting record id 1, which is
owned by user 2, leaves the table unchanged. -/
theorem delete_match_spec_witness : delete_match 1 alice [recOther] = [recOther] :=
  ((delete_match_spec [recOther] 1 alice).1 rfl).2 (by decide)

/-- Claim C5 (code behaviour at the failing input): an `admin` submission
with an empty player name and `acs = 200` shows the required-field error
AND still hands a row with empty `player_name` to `add_match` — the
empty-name check is a bare `if` that does not abort the write. -/
theorem match_form_empty_name_still_inserts :
    match_form_submit opsAdmin "" "Win" "Bind" "Jett" "Radiant" 200 50 10 5 3 =
      { messages := ["Player name is required.", "✅ Match details added successfully!"]
        inserted := some { user_id := 99, player_name := "", win_loss := "Win"
                           map_name := "Bind", agent := "Jett", current_rank := "Radiant"
                           acs := 200, econ_rating := 50, kills := 10, deaths := 5
                           assists := 3 } } := by
  decide

/-- Claim C6 (code behaviour at the failing input): a `player` submission
with `acs = 0` and every stat present is rejected with the
required-fields error and nothing is inserted, because `not acs` treats
the legitimate value `0` as missing. -/
theorem match_form_acs_zero_rejected :
    match_form_submit alice "" "Win" "Bind" "Jett" "Radiant" 0 50 10 5 3 =
      { messages := ["Please fill in all required fields."], inserted := none } := by
  decide

/-- Counterexample to C9 as stated: `rank_players` applied to the aggregate
of the empty input does not return the empty sequence. -/
theorem rank_of_empty_aggregate_not_ok :
    rank_players (aggregate_player_stats []) ≠ RankResult.ok [] := by
  decide

/-- Claim C9 as amended: `aggregate_player_stats` of empty input yields the
empty, column-less DataFrame without error, and `rank_players` applied to
that result raises `KeyError: avg_acs` (the app guards this call behind a
non-emptiness check). -/
theorem empty_aggregate_then_rank_raises :
    aggregate_player_stats [] = AggDF.emptyNoCols ∧
    rank_players (aggregate_player_stats []) = RankResult.keyError "avg_acs" := by
  decide

/-- Claim C3: on non-empty input, `aggregate_player_stats` produces one row
per distinct `player_name`, whose fields are the rounded means of `acs`,
`econ_rating` and the per-record K/D values, the summed
`kills`/`deaths`/`assists`, and the group size; the spec's two-record
example for player `A` yields mean ACS 250, mean K/D 11, 2 matches,
30 kills and 5 deaths. -/
theorem aggregate_spec :
    (∀ data : List MatchRow, data ≠ [] →
      ∃ out, aggregate_player_stats data = AggDF.table out ∧
        (out.map AggRow.player_name).Nodup ∧
        (∀ name, name ∈ out.map AggRow.player_name ↔ name ∈ data.map MatchRow.player_name) ∧
        (∀ s ∈ out,
          AggRow.matches_played s = (groupRecords data (AggRow.player_name s)).length ∧
          AggRow.total_kills s =
            ((groupRecords data (AggRow.player_name s)).map MatchRow.kills).sum ∧
          AggRow.total_deaths s =
            ((groupRecords data (AggRow.player_name s)).map MatchRow.deaths).sum ∧
          AggRow.total_assists s =
            ((groupRecords data (AggRow.player_name s)).map MatchRow.assists).sum ∧
          AggRow.avg_acs s = round2
            (((groupRecords data (AggRow.player_name s)).map (fun r => (r.acs : ℚ))).sum /
              ((groupRecords data (AggRow.player_name s)).length : ℚ)) ∧
          AggRow.avg_econ_rating s = round2
            (((groupRecords data (AggRow.player_name s)).map MatchRow.econ_rating).sum /
              ((groupRecords data (AggRow.player_name s)).length : ℚ)) ∧
          AggRow.avg_kd_ratio s = round2
            (((groupRecords data (AggRow.player_name s)).map
                (fun r => calculate_kd_ratio r.kills r.deaths)).sum /
              ((groupRecords data (AggRow.player_name s)).length : ℚ)))) ∧
    (aggregate_player_stats [recA1, recA2] = AggDF.table [aggStatsFor [recA1, recA2] "A"] ∧
      AggRow.avg_acs (aggStatsFor [recA1, recA2] "A") = 250 ∧
      AggRow.avg_kd_ratio (aggStatsFor [recA1, recA2] "A") = 11 ∧
      AggRow.matches_played (aggStatsFor [recA1, recA2] "A") = 2 ∧
      AggRow.total_kills (aggStatsFor [recA1, recA2] "A") = 30 ∧
      AggRow.total_deaths (aggStatsFor [recA1, recA2] "A") = 5) := by
  constructor
  · intro data h
    have hmap : ((groupKeys data).map
        (fun n => aggStatsFor (groupRecords data n) n)).map AggRow.player_name =
          groupKeys data := by
      rw [List.map_map]
      exact List.map_id _
    have hperm : List.Perm (groupKeys data) ((data.map (fun r => r.player_name)).dedup) :=
      List.perm_insertionSort _ _
    refine ⟨(groupKeys data).map (fun n => aggStatsFor (groupRecords data n) n),
      ?_, ?_, ?_, ?_⟩
    · cases data with
      | nil => exact absurd rfl h
      | cons a l => rfl
    · rw [hmap]
      exact hperm.nodup_iff.mpr (List.nodup_dedup _)
    · intro name
      rw [hmap]
      rw [hperm.mem_iff, List.mem_dedup]
    · intro s hs
      obtain ⟨n, hn, rfl⟩ := List.mem_map.mp hs
      refine ⟨rfl, rfl, rfl, rfl, ?_, ?_, ?_⟩ <;>
        simp [aggStatsFor, mean, List.length_map]
  · have hkeys : groupKeys [recA1, recA2] = ["A"] := by decide
    have hgrp : groupRecords [recA1, recA2] "A" = [recA1, recA2] := by decide
    have htab : aggregate_player_stats [recA1, recA2] =
        AggDF.table [aggStatsFor [recA1, recA2] "A"] := by
      simp [aggregate_player_stats, hkeys, hgrp]
    refine ⟨htab, ?_, ?_, rfl, rfl, rfl⟩
    · have hg : mean (List.map (fun r => (MatchRow.acs r : ℚ)) [recA1, recA2]) =
          ((250 : ℤ) : ℚ) := by
        norm_num [mean, recA1, recA2]
      show round2 (mean (List.map (fun r => (MatchRow.acs r : ℚ)) [recA1, recA2])) = 250
      rw [hg, round2_intCast]
      norm_num
    · have hg : mean (List.map (fun r => calculate_kd_ratio (MatchRow.kills r)
          (MatchRow.deaths r)) [recA1, recA2]) = ((11 : ℤ) : ℚ) := by
        norm_num [mean, recA1, recA2, calculate_kd_ratio]
      show round2 (mean (List.map (fun r => calculate_kd_ratio (MatchRow.kills r)
          (MatchRow.deaths r)) [recA1, recA2])) = 11
      rw [hg, round2_intCast]
      norm_num

/-- Witness for C3: the non-emptiness hypothesis discharged at the
two-record example, extracting the `matches_played` clause. -/
theorem aggregate_spec_witness :
    ∃ out, aggregate_player_stats [recA1, recA2] = AggDF.table out ∧
      ∀ s ∈ out, AggRow.matches_played s =
        (groupRecords [recA1, recA2] (AggRow.player_name s)).length := by
  obtain ⟨out, h1, _, _, h4⟩ := aggregate_spec.1 [recA1, recA2] (by simp)
  exact ⟨out, h1, fun s hs => (h4 s hs).1⟩

/-- Counterexample to C10 as stated: the record whose `player_name` is
`"+7"` is not a digit string, yet Python's `int` accepts it (value 7) and
a deletion IS attempted; moreover for a name containing `" | "` the first
field is not the player name. -/
theorem delete_form_parse_counterexample :
    isDigitString "+7" = false ∧
    pyInt "+7" = some 7 ∧
    delete_form_submit recPlus opsAdmin [recA1] ≠ none ∧
    selected_first_field recBar = "a" := by
  refine ⟨by decide, by decide, by decide, by decide⟩

/-- Claim C10 as amended: the delete flow parses the first `" | "` field of
the display string — which equals `player_name` whenever the name does
not contain `'|'` — with Python `int`; if the parse fails the exception
propagates and no deletion is attempted, and if it succeeds
`delete_match` is invoked with the parsed number (the player name read as
an id). -/
theorem delete_form_amended (r : MatchRow) (u : User) (tbl : List MatchRow) :
    ('|' ∉ r.player_name.data → selected_first_field r = r.player_name) ∧
    (pyInt (selected_first_field r) = none → delete_form_submit r u tbl = none) ∧
    (∀ k, pyInt (selected_first_field r) = some k →
      delete_form_submit r u tbl = some (delete_match k u tbl)) := by
  refine ⟨fun h => ?_, fun h => by simp [delete_form_submit, h],
    fun k h => by simp [delete_form_submit, h]⟩
  have hdata : (record_option r).data = r.player_name.data ++ (sepChars ++
      ((r.map_name ++ " | " ++ r.agent ++ " | " ++ r.current_rank ++ " | "
        ++ toString r.kills ++ "/" ++ toString r.deaths).data)) := by
    simp [record_option, String.data_append, sepChars, List.append_assoc]
  rw [selected_first_field, hdata, takeUntilSep_append _ _ h]

/-- Witness for C10 (amended): for the ordinary name `"abc"` the first
field is the name itself, the parse fails, and no deletion happens. -/
theorem delete_form_amended_witness :
    selected_first_field recAbc = "abc" ∧
    delete_form_submit recAbc opsAdmin [recA1] = none := by
  constructor
  · exact (delete_form_amended recAbc opsAdmin [recA1]).1 (by decide)
  · exact (delete_form_amended recAbc opsAdmin [recA1]).2.1 (by decide)

end ValorantPRS
